import Mathlib

/-!
Shallow embedding of the "Agência Check" back-office services (TypeScript)
for verification of its natural-language specification.

Conventions used throughout:
* `Date` values are modelled as `Nat` (milliseconds since epoch) or, where a
  method only reads the time of day, as minutes since midnight; every method
  that calls `new Date()` / `Date.now()` takes the current time as an explicit
  parameter.
* Randomly generated identifiers (`notif_...`, `backup_...`) are taken as
  explicit `freshId` parameters.
* A TypeScript method that can `throw` is embedded with an `Except String`
  result: `Except.error msg` models the thrown `Error(msg)` escaping the
  (async) method as a rejected promise.
* Listener callbacks (`this.listeners.forEach(listener => listener(n))`) are
  modelled by returning the list of notifications handed to the listeners.
* `localStorage` persistence (`saveData`) and console logging have no
  observable effect on the in-memory state and are not modelled.
-/

namespace Check

/-! ### Permission model (src/types/User.ts) -/

inductive UserRole
  | admin
  | manager
  | sales
  | viewer
deriving DecidableEq, Repr

structure UserPermissions where
  canViewSales : Bool
  canCreateSales : Bool
  canEditSales : Bool
  canDeleteSales : Bool
  canViewInventory : Bool
  canEditInventory : Bool
  canManageStock : Bool
  canViewPayments : Bool
  canManagePayments : Bool
  canConfigurePix : Bool
  canManageUsers : Bool
  canViewReports : Bool
  canManageBackups : Bool
  canAccessAnalytics : Bool
  canManageResellers : Bool
  canManageSettings : Bool
  canViewLogs : Bool
deriving DecidableEq, Repr

def ROLE_PERMISSIONS : UserRole → UserPermissions
  | UserRole.admin =>
    { canViewSales := true, canCreateSales := true, canEditSales := true,
      canDeleteSales := true, canViewInventory := true, canEditInventory := true,
      canManageStock := true, canViewPayments := true, canManagePayments := true,
      canConfigurePix := true, canManageUsers := true, canViewReports := true,
      canManageBackups := true, canAccessAnalytics := true,
      canManageResellers := true, canManageSettings := true, canViewLogs := true }
  | UserRole.manager =>
    { canViewSales := true, canCreateSales := true, canEditSales := true,
      canDeleteSales := true, canViewInventory := true, canEditInventory := true,
      canManageStock := true, canViewPayments := true, canManagePayments := false,
      canConfigurePix := false, canManageUsers := false, canViewReports := true,
      canManageBackups := false, canAccessAnalytics := true,
      canManageResellers := true, canManageSettings := false, canViewLogs := false }
  | UserRole.sales =>
    { canViewSales := true, canCreateSales := true, canEditSales := true,
      canDeleteSales := false, canViewInventory := true, canEditInventory := false,
      canManageStock := false, canViewPayments := true, canManagePayments := false,
      canConfigurePix := false, canManageUsers := false, canViewReports := false,
      canManageBackups := false, canAccessAnalytics := false,
      canManageResellers := false, canManageSettings := false, canViewLogs := false }
  | UserRole.viewer =>
    { canViewSales := true, canCreateSales := false, canEditSales := false,
      canDeleteSales := false, canViewInventory := true, canEditInventory := false,
      canManageStock := false, canViewPayments := true, canManagePayments := false,
      canConfigurePix := false, canManageUsers := false, canViewReports := true,
      canManageBackups := false, canAccessAnalytics := true,
      canManageResellers := false, canManageSettings := false, canViewLogs := false }

/-- Permission keys in declaration order, with their boolean projections,
mirroring `Object.keys(ROLE_PERMISSIONS[role])` over the interface. -/
def PERMISSION_KEYS : List (String × (UserPermissions → Bool)) :=
  [("canViewSales", UserPermissions.canViewSales),
   ("canCreateSales", UserPermissions.canCreateSales),
   ("canEditSales", UserPermissions.canEditSales),
   ("canDeleteSales", UserPermissions.canDeleteSales),
   ("canViewInventory", UserPermissions.canViewInventory),
   ("canEditInventory", UserPermissions.canEditInventory),
   ("canManageStock", UserPermissions.canManageStock),
   ("canViewPayments", UserPermissions.canViewPayments),
   ("canManagePayments", UserPermissions.canManagePayments),
   ("canConfigurePix", UserPermissions.canConfigurePix),
   ("canManageUsers", UserPermissions.canManageUsers),
   ("canViewReports", UserPermissions.canViewReports),
   ("canManageBackups", UserPermissions.canManageBackups),
   ("canAccessAnalytics", UserPermissions.canAccessAnalytics),
   ("canManageResellers", UserPermissions.canManageResellers),
   ("canManageSettings", UserPermissions.canManageSettings),
   ("canViewLogs", UserPermissions.canViewLogs)]

/-- `Object.keys(perms).filter(key => perms[key])`: the names of the enabled
permissions, in declaration order. -/
def enabledPermissionKeys (p : UserPermissions) : List String :=
  (PERMISSION_KEYS.filter fun kv => kv.2 p).map Prod.fst

/-! ### User entities (src/types/User.ts) -/

structure User where
  id : String
  email : String
  name : String
  role : UserRole
  avatar : Option String := none
  isActive : Bool
  lastLogin : Option Nat := none
  createdAt : Nat
  updatedAt : Nat
  permissions : List String
deriving DecidableEq, Repr

structure CreateUserRequest where
  email : String
  name : String
  role : UserRole
  password : String
deriving DecidableEq, Repr

structure UpdateUserRequest where
  name : Option String := none
  role : Option UserRole := none
  isActive : Option Bool := none
  permissions : Option (List String) := none
deriving DecidableEq, Repr

/-! ### UserService (src/services/userService.ts) -/

/-- Result shape `{ success: boolean; user?: User; message?: string }`. -/
structure UserResult where
  success : Bool
  user : Option User := none
  message : Option String := none
deriving DecidableEq, Repr

/-- Result shape `{ success: boolean; message?: string }`. -/
structure SimpleResult where
  success : Bool
  message : Option String := none
deriving DecidableEq, Repr

/-- The mutable fields of the `UserService` singleton. -/
structure UserServiceState where
  users : List User
  currentUser : Option User
deriving DecidableEq, Repr

def accessDeniedMsg : String := "Acesso negado: permissão insuficiente"

def emailInUseMsg : String := "Email já está em uso"

def userNotFoundMsg : String := "Usuário não encontrado"

def cannotDeleteSelfMsg : String := "Não é possível excluir o próprio usuário"

/-- The two seeded users of the in-memory list. The `new Date('2025-01-01')`
creation stamp is `seedDate`; `new Date()` at construction time is `now`. -/
def seedDate : Nat := 1735689600000

def initialUsers (now : Nat) : List User :=
  [{ id := "1", email := "juliocorrea@check2.com.br",
     name := "Julio Correa - Administrador", role := UserRole.admin,
     isActive := true, createdAt := seedDate, updatedAt := now,
     permissions := enabledPermissionKeys (ROLE_PERMISSIONS UserRole.admin) },
   { id := "2", email := "manager@agenciacheck.com",
     name := "Gerente Comercial", role := UserRole.manager,
     isActive := true, createdAt := seedDate, updatedAt := now,
     permissions := enabledPermissionKeys (ROLE_PERMISSIONS UserRole.manager) }]

/-- `hasPermission(permission)`: false when nobody is logged in, otherwise the
role's entry in `ROLE_PERMISSIONS` (the per-user `permissions` array is not
consulted). A permission key is embedded as its boolean projection. -/
def hasPermission (st : UserServiceState) (p : UserPermissions → Bool) : Bool :=
  match st.currentUser with
  | none => false
  | some u => p (ROLE_PERMISSIONS u.role)

/-- The `User` object built and pushed by `createUser` when validation
passes. -/
def newUserOfRequest (now : Nat) (userData : CreateUserRequest)
    (st : UserServiceState) : User :=
  { id := toString (st.users.length + 1), email := userData.email,
    name := userData.name, role := userData.role, isActive := true,
    createdAt := now, updatedAt := now,
    permissions := enabledPermissionKeys (ROLE_PERMISSIONS userData.role) }

/-- `createUser(userData)`: permission gate, duplicate-email check, then push
a fresh user. The surrounding try/catch is irrelevant here because no
embedded step can throw. -/
def createUser (now : Nat) (userData : CreateUserRequest)
    (st : UserServiceState) : UserResult × UserServiceState :=
  if !hasPermission st UserPermissions.canManageUsers then
    ({ success := false, message := some accessDeniedMsg }, st)
  else if st.users.any fun u => u.email = userData.email then
    ({ success := false, message := some emailInUseMsg }, st)
  else
    let newUser := newUserOfRequest now userData st
    ({ success := true, user := some newUser },
     { st with users := st.users ++ [newUser] })

/-- In-place field updates applied by `updateUser` to the found user object.
JavaScript truthiness on `updateData.name` means an empty string is ignored. -/
def applyUserUpdate (now : Nat) (updateData : UpdateUserRequest) (u : User) : User :=
  let u := match updateData.name with
    | some n => if n = "" then u else { u with name := n }
    | none => u
  let u := match updateData.role with
    | some r =>
      { u with role := r,
               permissions := enabledPermissionKeys (ROLE_PERMISSIONS r) }
    | none => u
  let u := match updateData.isActive with
    | some b => { u with isActive := b }
    | none => u
  let u := match updateData.permissions with
    | some ps => { u with permissions := ps }
    | none => u
  { u with updatedAt := now }

/-- Mutation of the first list element with the given id, as done through the
object reference returned by `findIndex`/`find`. -/
def updateFirstUser (userId : String) (f : User → User) : List User → List User
  | [] => []
  | u :: rest =>
    if u.id = userId then f u :: rest else u :: updateFirstUser userId f rest

/-- `updateUser(userId, updateData)`. -/
def updateUser (now : Nat) (userId : String) (updateData : UpdateUserRequest)
    (st : UserServiceState) : UserResult × UserServiceState :=
  if !hasPermission st UserPermissions.canManageUsers then
    ({ success := false, message := some accessDeniedMsg }, st)
  else
    match st.users.find? fun u => u.id = userId with
    | none => ({ success := false, message := some userNotFoundMsg }, st)
    | some u =>
      ({ success := true, user := some (applyUserUpdate now updateData u) },
       { st with users :=
          updateFirstUser userId (applyUserUpdate now updateData) st.users })

/-- `deleteUser(userId)`: permission gate, self-deletion guard
(`this.currentUser?.id === userId`), then `findIndex` + `splice(index, 1)`. -/
def isCurrentUserId (st : UserServiceState) (userId : String) : Bool :=
  match st.currentUser with
  | some u => u.id == userId
  | none => false

def deleteUser (userId : String) (st : UserServiceState) :
    SimpleResult × UserServiceState :=
  if !hasPermission st UserPermissions.canManageUsers then
    ({ success := false, message := some accessDeniedMsg }, st)
  else if isCurrentUserId st userId then
    ({ success := false, message := some cannotDeleteSelfMsg }, st)
  else
    match st.users.findIdx? fun u => u.id = userId with
    | none => ({ success := false, message := some userNotFoundMsg }, st)
    | some i => ({ success := true }, { st with users := st.users.eraseIdx i })

/-- `getAllUsers()`: throws `Error('Acesso negado: ...')` (no try/catch in the
method body) when the permission is missing; the throw is embedded as
`Except.error`. -/
def getAllUsers (st : UserServiceState) : Except String (List User) :=
  if !hasPermission st UserPermissions.canManageUsers then
    Except.error accessDeniedMsg
  else
    Except.ok st.users

/-- One entry of the mock activity log returned by `getUserActivity`. -/
structure ActivityEntry where
  id : String
  userId : Option String
  action : String
  timestamp : Int
  details : String
deriving DecidableEq, Repr

/-- JavaScript `a || b` over optional strings (empty string is falsy). -/
def orFallback (a b : Option String) : Option String :=
  match a with
  | some s => if s = "" then b else some s
  | none => b

/-- `getUserActivity(userId?)`: throws when `canViewLogs` is missing,
otherwise returns two mock entries stamped `now` and `now - 3600000`. -/
def getUserActivity (now : Int) (userId : Option String)
    (st : UserServiceState) : Except String (List ActivityEntry) :=
  if !hasPermission st UserPermissions.canViewLogs then
    Except.error accessDeniedMsg
  else
    Except.ok
      [{ id := "1", userId := orFallback userId (st.currentUser.map User.id),
         action := "login", timestamp := now,
         details := "Login realizado com sucesso" },
       { id := "2", userId := orFallback userId (st.currentUser.map User.id),
         action := "create_sale", timestamp := now - 3600000,
         details := "Nova venda criada - R$ 150,00" }]

/-- Reports whether an embedded throwing method raised (promise rejected). -/
def raisesError {α : Type} (e : Except String α) : Bool :=
  match e with
  | Except.error _ => true
  | Except.ok _ => false

/-! ### AnalyticsService (src/services/analyticsService.ts) -/

/-- `calculatePercentChange(current, previous)`. JavaScript `number`
arithmetic is modelled on `ℚ`; the formula involves one subtraction, one
division and one multiplication, all exact at the inputs the claims use. -/
def calculatePercentChange (current previous : ℚ) : ℚ :=
  if previous = 0 then (if 0 < current then 100 else 0)
  else ((current - previous) / previous) * 100

/-! ### Notification entities (src/types/Notification.ts) -/

inductive NotificationType
  | success
  | error
  | warning
  | info
deriving DecidableEq, Repr

inductive NotificationCategory
  | order
  | payment
  | system
  | backup
  | user
  | general
deriving DecidableEq, Repr

inductive NotificationPriority
  | low
  | medium
  | high
  | urgent
deriving DecidableEq, Repr

/-- A stored notification. The `metadata` (`Record<string, any>`) and
`actions` (callback-valued) fields carry no typed data and are omitted. -/
structure Notification where
  id : String
  type : NotificationType
  category : NotificationCategory
  priority : NotificationPriority
  title : String
  message : String
  timestamp : Nat
  read : Bool
  userId : Option String := none
  autoClose : Option Nat := none
  persistent : Option Bool := none
  sound : Option Bool := none
deriving DecidableEq, Repr

/-- The argument of `addNotification`:
`Omit<Notification, 'id' | 'timestamp' | 'read'>`. -/
structure NotificationInput where
  type : NotificationType
  category : NotificationCategory
  priority : NotificationPriority
  title : String
  message : String
  userId : Option String := none
  autoClose : Option Nat := none
  persistent : Option Bool := none
  sound : Option Bool := none
deriving DecidableEq, Repr

/-- Per-category channel toggles. -/
structure CategoryChannels where
  enabled : Bool
  email : Bool
  push : Bool
  sound : Bool
deriving DecidableEq, Repr

/-- The `categories` record, one entry per `NotificationCategory`. -/
structure CategorySettingsMap where
  order : CategoryChannels
  payment : CategoryChannels
  system : CategoryChannels
  backup : CategoryChannels
  user : CategoryChannels
  general : CategoryChannels
deriving DecidableEq, Repr

def CategorySettingsMap.get (m : CategorySettingsMap) :
    NotificationCategory → CategoryChannels
  | NotificationCategory.order => m.order
  | NotificationCategory.payment => m.payment
  | NotificationCategory.system => m.system
  | NotificationCategory.backup => m.backup
  | NotificationCategory.user => m.user
  | NotificationCategory.general => m.general

/-- Quiet-hours window; `start`/`endTime` are the `HH:mm` strings named
`start` and `end` in the source (`end` is a Lean keyword). -/
structure QuietHoursSettings where
  enabled : Bool
  start : String
  endTime : String
deriving DecidableEq, Repr

structure NotificationSettings where
  userId : String
  emailNotifications : Bool
  pushNotifications : Bool
  soundEnabled : Bool
  categories : CategorySettingsMap
  quietHours : QuietHoursSettings
  createdAt : Nat
  updatedAt : Nat
deriving DecidableEq, Repr

/-- `createDefaultSettings()`. -/
def createDefaultSettings (now : Nat) : NotificationSettings :=
  { userId := "current-user",
    emailNotifications := true, pushNotifications := true, soundEnabled := true,
    categories :=
      { order := { enabled := true, email := true, push := true, sound := true },
        payment := { enabled := true, email := true, push := true, sound := true },
        system := { enabled := true, email := false, push := true, sound := false },
        backup := { enabled := true, email := false, push := false, sound := false },
        user := { enabled := true, email := false, push := true, sound := false },
        general := { enabled := true, email := false, push := true, sound := false } },
    quietHours := { enabled := false, start := "22:00", endTime := "08:00" },
    createdAt := now, updatedAt := now }

/-- The deferral queue (`NotificationQueue`). -/
structure NotificationQueue where
  notifications : List Notification
  maxSize : Nat
  retryAttempts : Nat
deriving DecidableEq, Repr

/-- The mutable fields of the `NotificationService` singleton that the
verified methods touch (templates, audio, connection status and the listener
set are not part of the stored data; listener calls are returned as values). -/
structure NotificationState where
  notifications : List Notification
  settings : NotificationSettings
  queue : NotificationQueue
deriving DecidableEq, Repr

/-- `'HH:mm'.split(':')` over the string's characters (structural recursion
so that concrete inputs evaluate). -/
def splitColon : List Char → List Char → List (List Char)
  | [], acc => [acc.reverse]
  | c :: rest, acc =>
    if c = ':' then acc.reverse :: splitColon rest []
    else splitColon rest (c :: acc)

/-- `Number(...)` on a digit string (`0` stands for the ill-formed cases the
claims never exercise). -/
def digitsToNat : List Char → Nat → Nat
  | [], acc => acc
  | c :: rest, acc =>
    if c.isDigit then digitsToNat rest (acc * 10 + (c.toNat - 48)) else 0

/-- `'HH:mm'.split(':').map(Number)` folded into minutes since midnight. -/
def parseClockMinutes (s : String) : Nat :=
  match splitColon s.toList [] with
  | [h, m] => digitsToNat h 0 * 60 + digitsToNat m 0
  | _ => 0

/-- `isQuietHours()`, with the wall clock passed in as minutes since
midnight. -/
def isQuietHours (settings : NotificationSettings) (currentTime : Nat) : Bool :=
  if !settings.quietHours.enabled then false
  else
    let startTime := parseClockMinutes settings.quietHours.start
    let endTime := parseClockMinutes settings.quietHours.endTime
    if startTime ≤ endTime then
      startTime ≤ currentTime && currentTime ≤ endTime
    else
      startTime ≤ currentTime || currentTime ≤ endTime

/-- The `fullNotification` object built at the top of `addNotification`. -/
def buildNotification (freshId : String) (now : Nat)
    (input : NotificationInput) : Notification :=
  { id := freshId, type := input.type, category := input.category,
    priority := input.priority, title := input.title, message := input.message,
    timestamp := now, read := false, userId := input.userId,
    autoClose := input.autoClose, persistent := input.persistent,
    sound := input.sound }

/-- Everything observable about one `addNotification` call: the returned id,
the state after the call, the notifications handed to the subscribed
listeners, and whether the notification sound was played. -/
structure AddOutcome where
  id : String
  state : NotificationState
  delivered : List Notification
  soundPlayed : Bool
deriving DecidableEq, Repr

/-- `addNotification(notification)`; `freshId` is the generated id, `now` the
timestamp and `timeOfDay` the minutes since midnight used by `isQuietHours`. -/
def addNotification (freshId : String) (now timeOfDay : Nat)
    (input : NotificationInput) (st : NotificationState) : AddOutcome :=
  let full := buildNotification freshId now input
  if !(st.settings.categories.get input.category).enabled then
    { id := freshId, state := st, delivered := [], soundPlayed := false }
  else if isQuietHours st.settings timeOfDay then
    { id := freshId,
      state := { st with
        queue := { st.queue with
          notifications := st.queue.notifications ++ [full] } },
      delivered := [], soundPlayed := false }
  else
    let inserted := full :: st.notifications
    let capped := if inserted.length > 1000 then inserted.take 1000 else inserted
    { id := freshId, state := { st with notifications := capped },
      delivered := [full],
      soundPlayed :=
        st.settings.soundEnabled
          && (st.settings.categories.get input.category).sound }

/-- Wrapper `success(title, message, category = 'general')`. -/
def notifySuccess (freshId : String) (now timeOfDay : Nat)
    (title message : String) (category : NotificationCategory)
    (st : NotificationState) : AddOutcome :=
  addNotification freshId now timeOfDay
    { type := NotificationType.success, category := category,
      priority := NotificationPriority.medium, title := title,
      message := message } st

/-- Wrapper `error(title, message, category = 'general')`. -/
def notifyError (freshId : String) (now timeOfDay : Nat)
    (title message : String) (category : NotificationCategory)
    (st : NotificationState) : AddOutcome :=
  addNotification freshId now timeOfDay
    { type := NotificationType.error, category := category,
      priority := NotificationPriority.high, title := title,
      message := message, persistent := some true } st

/-- Wrapper `warning(title, message, category = 'general')`. -/
def notifyWarning (freshId : String) (now timeOfDay : Nat)
    (title message : String) (category : NotificationCategory)
    (st : NotificationState) : AddOutcome :=
  addNotification freshId now timeOfDay
    { type := NotificationType.warning, category := category,
      priority := NotificationPriority.medium, title := title,
      message := message } st

/-- Wrapper `info(title, message, category = 'general')`. -/
def notifyInfo (freshId : String) (now timeOfDay : Nat)
    (title message : String) (category : NotificationCategory)
    (st : NotificationState) : AddOutcome :=
  addNotification freshId now timeOfDay
    { type := NotificationType.info, category := category,
      priority := NotificationPriority.low, title := title,
      message := message, autoClose := some 5000 } st

/-- `getUnreadNotifications()`. -/
def getUnreadNotifications (st : NotificationState) : List Notification :=
  st.notifications.filter fun n => !n.read

/-- `markAllAsRead()`: sets `read = true` on every stored notification. -/
def markAllAsRead (st : NotificationState) : NotificationState :=
  { st with notifications := st.notifications.map fun n => { n with read := true } }

/-- Mutation of the first stored notification with the given id. -/
def setFirstRead (notificationId : String) :
    List Notification → List Notification
  | [] => []
  | n :: rest =>
    if n.id = notificationId then { n with read := true } :: rest
    else n :: setFirstRead notificationId rest

/-- `markAsRead(notificationId)`: returns whether anything changed. -/
def markAsRead (notificationId : String) (st : NotificationState) :
    Bool × NotificationState :=
  match st.notifications.find? fun n => n.id = notificationId with
  | none => (false, st)
  | some n =>
    if n.read then (false, st)
    else (true,
      { st with notifications := setFirstRead notificationId st.notifications })

/-- `deleteNotification(notificationId)`: `findIndex` + `splice(index, 1)`. -/
def deleteNotification (notificationId : String) (st : NotificationState) :
    Bool × NotificationState :=
  match st.notifications.findIdx? fun n => n.id = notificationId with
  | none => (false, st)
  | some i => (true, { st with notifications := st.notifications.eraseIdx i })

/-- `clearAll()`. -/
def clearAll (st : NotificationState) : NotificationState :=
  { st with notifications := [] }

/-- `processQueue()`: empties the queue, unshifts every queued notification
into the stored list in queue order, and hands each one to the listeners
(the second component). The 1000-item cap of `addNotification` is not
re-applied here. -/
def processQueue (st : NotificationState) : NotificationState × List Notification :=
  let queued := st.queue.notifications
  ({ st with
      queue := { st.queue with notifications := [] },
      notifications := queued.foldl (fun acc n => n :: acc) st.notifications },
   queued)

/-! ### Backup entities and BackupService (src/types/Backup.ts,
src/services/backupService.ts) -/

inductive BackupType
  | full
  | incremental
  | vendas
  | estoque
  | configuracoes
deriving DecidableEq, Repr

inductive BackupStatus
  | pending
  | running
  | completed
  | failed
deriving DecidableEq, Repr

/-- The string value of a `BackupType`, as interpolated into the default
backup name. -/
def BackupType.text : BackupType → String
  | BackupType.full => "full"
  | BackupType.incremental => "incremental"
  | BackupType.vendas => "vendas"
  | BackupType.estoque => "estoque"
  | BackupType.configuracoes => "configuracoes"

structure BackupItem where
  id : String
  name : String
  type : BackupType
  status : BackupStatus
  createdAt : Nat
  completedAt : Option Nat := none
  size : Nat
  downloadUrl : Option String := none
  errorMessage : Option String := none
  progress : Nat
  userId : String
  description : Option String := none
deriving DecidableEq, Repr

/-- The `backups` array of the `BackupService` singleton (its `configs`,
`restoreOperations` and interval handles are untouched by the verified
methods). -/
structure BackupState where
  backups : List BackupItem
deriving DecidableEq, Repr

def backupNotFoundMsg : String := "Backup não encontrado"

/-- `description || 'Backup ${type} - ${date}'` (empty string is falsy);
`dateStr` stands for `new Date().toLocaleDateString('pt-BR')`. -/
def backupDisplayName (descr : Option String) (t : BackupType)
    (dateStr : String) : String :=
  match descr with
  | some d => if d = "" then "Backup " ++ t.text ++ " - " ++ dateStr else d
  | none => "Backup " ++ t.text ++ " - " ++ dateStr

/-- The `BackupItem` object built at the top of `createBackup`. -/
def newBackupItem (backupId : String) (now : Nat) (dateStr : String)
    (t : BackupType) (descr : Option String) : BackupItem :=
  { id := backupId, name := backupDisplayName descr t dateStr, type := t,
    status := BackupStatus.running, createdAt := now, size := 0,
    progress := 0, userId := "current-user", description := descr }

/-- The synchronous prefix of `createBackup` (everything before the first
`await`): builds the record with `status: 'running'`, `progress: 0`,
`size: 0`, and unshifts it into the list. There is no quiet-hours check
anywhere in `createBackup`. Returns the new state together with the created
record. -/
def createBackupStart (backupId : String) (now : Nat) (dateStr : String)
    (t : BackupType) (descr : Option String) (st : BackupState) :
    BackupState × BackupItem :=
  ({ backups := newBackupItem backupId now dateStr t descr :: st.backups },
   newBackupItem backupId now dateStr t descr)

/-- Mutation of the first backup with the given id, as done through the
object reference held by `createBackup` (and by `find` in its catch
branch). -/
def setFirstBackup (backupId : String) (f : BackupItem → BackupItem) :
    List BackupItem → List BackupItem
  | [] => []
  | b :: rest =>
    if b.id = backupId then f b :: rest
    else b :: setFirstBackup backupId f rest

/-- The success epilogue of `createBackup`: the record gets the blob size,
`status: 'completed'`, its completion stamp, a fresh object URL and
`progress: 100`. The fixed-increment progress loop before it only rewrites
`progress` while the status stays `running`. -/
def createBackupComplete (backupId : String) (doneAt blobSize : Nat)
    (url : String) (st : BackupState) : BackupState :=
  { backups :=
      setFirstBackup backupId
        (fun b =>
          { b with size := blobSize, status := BackupStatus.completed,
                   completedAt := some doneAt, downloadUrl := some url,
                   progress := 100 })
        st.backups }

/-- The catch branch of `createBackup`: the record (looked up by id) gets
`status: 'failed'` and the error message. -/
def createBackupFail (backupId : String) (msg : String) (st : BackupState) :
    BackupState :=
  { backups :=
      setFirstBackup backupId
        (fun b =>
          { b with status := BackupStatus.failed, errorMessage := some msg })
        st.backups }

/-- The object URLs revoked for one backup
(`if (backup.downloadUrl) URL.revokeObjectURL(...)`). -/
def revokedUrls (b : BackupItem) : List String :=
  match b.downloadUrl with
  | some u => [u]
  | none => []

/-- `findIndex` + revoke + `splice(index, 1)`: removes the first backup with
the given id and reports the revoked URLs, or `none` when no backup
matches. -/
def removeFirstBackup (backupId : String) :
    List BackupItem → Option (List BackupItem × List String)
  | [] => none
  | b :: rest =>
    if b.id = backupId then some (rest, revokedUrls b)
    else
      match removeFirstBackup backupId rest with
      | none => none
      | some (l, urls) => some (b :: l, urls)

/-- `deleteBackup(id)`: result, state after the call, and the revoked object
URLs. -/
def deleteBackup (backupId : String) (st : BackupState) :
    SimpleResult × BackupState × List String :=
  match removeFirstBackup backupId st.backups with
  | none => ({ success := false, message := some backupNotFoundMsg }, st, [])
  | some (l, urls) => ({ success := true }, { backups := l }, urls)

/-! ### Concrete fixtures used to evaluate the theorems on closed inputs -/

/-- Service state right after construction: seeded users, nobody logged in. -/
def stNone : UserServiceState := { users := initialUsers 0, currentUser := none }

/-- The seeded administrator. -/
def adminUser0 : User :=
  { id := "1", email := "juliocorrea@check2.com.br",
    name := "Julio Correa - Administrador", role := UserRole.admin,
    isActive := true, createdAt := seedDate, updatedAt := 0,
    permissions := enabledPermissionKeys (ROLE_PERMISSIONS UserRole.admin) }

/-- Service state with the seeded administrator logged in. -/
def stAdmin : UserServiceState :=
  { users := initialUsers 0, currentUser := some adminUser0 }

/-- A creation request whose email is already taken by the seeded manager. -/
def dupEmailReq : CreateUserRequest :=
  { email := "manager@agenciacheck.com", name := "Novo", role := UserRole.sales,
    password := "p123" }

/-- A creation request with a fresh email. -/
def freshEmailReq : CreateUserRequest :=
  { email := "novo@agenciacheck.com", name := "Novo", role := UserRole.sales,
    password := "p123" }

/-- A minimal unread stored notification. -/
def demoNotif (i : String) : Notification :=
  { id := i, type := NotificationType.info,
    category := NotificationCategory.general,
    priority := NotificationPriority.low, title := "t", message := "m",
    timestamp := 0, read := false }

/-- The queue as initialised in the service (`maxSize: 100`). -/
def baseQueue : NotificationQueue :=
  { notifications := [], maxSize := 100, retryAttempts := 0 }

/-- Two unread notifications, default settings, empty queue. -/
def demoNotifState : NotificationState :=
  { notifications := [demoNotif "a", demoNotif "b"],
    settings := createDefaultSettings 0, queue := baseQueue }

/-- Default settings with the `system` category disabled. -/
def stDisabledSystem : NotificationState :=
  { notifications := [], queue := baseQueue,
    settings :=
      { createDefaultSettings 0 with
          categories :=
            { (createDefaultSettings 0).categories with
                system :=
                  { enabled := false, email := false, push := true,
                    sound := false } } } }

/-- Default settings with quiet hours switched on (22:00 to 08:00). -/
def stQuietOn : NotificationState :=
  { notifications := [], queue := baseQueue,
    settings :=
      { createDefaultSettings 0 with
          quietHours :=
            { enabled := true, start := "22:00", endTime := "08:00" } } }

/-- A notification list already at the 1000-item cap, with one queued item. -/
def overflowState : NotificationState :=
  { notifications := List.replicate 1000 (demoNotif "n"),
    settings := createDefaultSettings 0,
    queue := { notifications := [demoNotif "q"], maxSize := 100,
               retryAttempts := 0 } }

/-- A completed backup holding an object URL. -/
def demoBackup : BackupItem :=
  { id := "bk1", name := "Backup full - d", type := BackupType.full,
    status := BackupStatus.completed, createdAt := 0, completedAt := some 5,
    size := 10, downloadUrl := some "blob:demo", progress := 100,
    userId := "current-user" }

def stBackups : BackupState := { backups := [demoBackup] }

def emptyBackupState : BackupState := { backups := [] }

/-! ### Helper lemmas -/

theorem foldl_unshift (l acc : List Notification) :
    l.foldl (fun a n => n :: a) acc = l.reverse ++ acc := by
  induction l generalizing acc with
  | nil => simp
  | cons x xs ih => simp [List.foldl, ih]

theorem length_setFirstRead (notificationId : String) (l : List Notification) :
    (setFirstRead notificationId l).length = l.length := by
  induction l with
  | nil => rfl
  | cons n rest ih =>
    by_cases h : n.id = notificationId <;> simp [setFirstRead, h, ih]

theorem length_eraseIdx_le {α : Type} (l : List α) (i : Nat) :
    (l.eraseIdx i).length ≤ l.length := by
  induction l generalizing i with
  | nil => simp [List.eraseIdx]
  | cons a rest ih =>
    cases i with
    | zero => simp [List.eraseIdx]
    | succ j =>
      simp only [List.eraseIdx, List.length_cons]
      exact Nat.succ_le_succ (ih j)

theorem filter_unread_after_markAll (l : List Notification) :
    (l.map fun n => { n with read := true }).filter (fun n => !n.read) = [] := by
  induction l with
  | nil => rfl
  | cons a rest ih => simp [ih]

theorem setFirstBackup_headMatch (backupId : String)
    (f : BackupItem → BackupItem) (b : BackupItem) (rest : List BackupItem)
    (hb : b.id = backupId) :
    setFirstBackup backupId f (b :: rest) = f b :: rest := by
  simp [setFirstBackup, hb]

theorem capped_length_le (x : Notification) (l : List Notification)
    (h : l.length ≤ 1000) :
    (if (x :: l).length > 1000 then (x :: l).take 1000 else x :: l).length
      ≤ 1000 := by
  by_cases hc : (x :: l).length > 1000
  · rw [if_pos hc, List.length_take]
    exact min_le_left _ _
  · rw [if_neg hc]
    simp only [List.length_cons] at hc ⊢
    omega

theorem processQueue_notifications (st : NotificationState) :
    (processQueue st).1.notifications =
      st.queue.notifications.reverse ++ st.notifications := by
  simp [processQueue, foldl_unshift]

theorem overflowState_length : overflowState.notifications.length = 1000 := by
  show (List.replicate 1000 (demoNotif "n")).length = 1000
  rw [List.length_replicate]

theorem removeFirstBackup_none (backupId : String) (l : List BackupItem)
    (h : (l.any fun b => b.id = backupId) = false) :
    removeFirstBackup backupId l = none := by
  induction l with
  | nil => rfl
  | cons b rest ih =>
    simp only [List.any_cons, Bool.or_eq_false_iff] at h
    have hb : ¬ b.id = backupId := by
      intro he
      simp [he] at h
    simp [removeFirstBackup, hb, ih h.2]

theorem removeFirstBackup_some (backupId : String) (l : List BackupItem)
    (h : (l.any fun b => b.id = backupId) = true) :
    ∃ pre b post,
      l = pre ++ b :: post ∧ b.id = backupId ∧
      (∀ x ∈ pre, ¬ x.id = backupId) ∧
      removeFirstBackup backupId l = some (pre ++ post, revokedUrls b) := by
  induction l with
  | nil => simp at h
  | cons b rest ih =>
    by_cases hb : b.id = backupId
    · exact ⟨[], b, rest, by simp, hb, by simp, by simp [removeFirstBackup, hb]⟩
    · have hrest : (rest.any fun x => x.id = backupId) = true := by
        simp only [List.any_cons] at h
        rcases Bool.or_eq_true_iff.mp h with h1 | h2
        · exact absurd (of_decide_eq_true h1) hb
        · exact h2
      obtain ⟨pre, c, post, hl, hc, hpre, heq⟩ := ih hrest
      refine ⟨b :: pre, c, post, by simp [hl], hc, ?_, ?_⟩
      · intro x hx
        rcases List.mem_cons.mp hx with rfl | hx'
        · exact hb
        · exact hpre x hx'
      · simp [removeFirstBackup, hb, heq]

/-! ### Claim theorems -/

/-- Claim C1: every permission-gated user-management method called while the
current principal lacks `canManageUsers` (in particular when nobody is
authenticated) yields an access-denied result — a `{success: false}` value
for `createUser`/`updateUser`/`deleteUser`, a thrown access-denied error for
`getAllUsers` — and leaves the service state, hence the users collection,
unchanged. -/
theorem userManagement_permissionGate (now : Nat) (d : CreateUserRequest)
    (uid : String) (upd : UpdateUserRequest) (st : UserServiceState)
    (h : hasPermission st UserPermissions.canManageUsers = false) :
    (createUser now d st).1.success = false ∧
    (createUser now d st).1.message = some accessDeniedMsg ∧
    (createUser now d st).2 = st ∧
    (updateUser now uid upd st).1.success = false ∧
    (updateUser now uid upd st).1.message = some accessDeniedMsg ∧
    (updateUser now uid upd st).2 = st ∧
    (deleteUser uid st).1.success = false ∧
    (deleteUser uid st).1.message = some accessDeniedMsg ∧
    (deleteUser uid st).2 = st ∧
    getAllUsers st = Except.error accessDeniedMsg := by
  simp [createUser, updateUser, deleteUser, getAllUsers, h]

/-- Witness for C1 at the freshly constructed service state (nobody logged
in). -/
theorem userManagement_permissionGate_w :
    (createUser 0 freshEmailReq stNone).1.success = false ∧
    (createUser 0 freshEmailReq stNone).1.message = some accessDeniedMsg ∧
    (createUser 0 freshEmailReq stNone).2 = stNone ∧
    (updateUser 0 "1" {} stNone).1.success = false ∧
    (updateUser 0 "1" {} stNone).1.message = some accessDeniedMsg ∧
    (updateUser 0 "1" {} stNone).2 = stNone ∧
    (deleteUser "1" stNone).1.success = false ∧
    (deleteUser "1" stNone).1.message = some accessDeniedMsg ∧
    (deleteUser "1" stNone).2 = stNone ∧
    getAllUsers stNone = Except.error accessDeniedMsg :=
  userManagement_permissionGate 0 freshEmailReq "1" {} stNone rfl

/-- Claim C2: with `canManageUsers` held, `createUser` rejects a duplicate
email with the 'email in use' message and appends nothing, and with a fresh
email succeeds and appends exactly the one new user carrying that email. -/
theorem createUser_emailUniqueness (now : Nat) (d : CreateUserRequest)
    (st : UserServiceState)
    (hperm : hasPermission st UserPermissions.canManageUsers = true) :
    ((st.users.any fun u => u.email = d.email) = true →
      (createUser now d st).1.success = false ∧
      (createUser now d st).1.message = some emailInUseMsg ∧
      (createUser now d st).2 = st) ∧
    ((st.users.any fun u => u.email = d.email) = false →
      (createUser now d st).1.success = true ∧
      (createUser now d st).2.users = st.users ++ [newUserOfRequest now d st] ∧
      (newUserOfRequest now d st).email = d.email) := by
  constructor
  · intro hdup
    simp [createUser, hperm, hdup]
  · intro hfresh
    simp [createUser, hperm, hfresh, newUserOfRequest]

/-- Witness for C2: the seeded admin creating a duplicate of the manager's
email fails, and a fresh email is appended. -/
theorem createUser_emailUniqueness_w :
    ((createUser 0 dupEmailReq stAdmin).1.success = false ∧
      (createUser 0 dupEmailReq stAdmin).1.message = some emailInUseMsg ∧
      (createUser 0 dupEmailReq stAdmin).2 = stAdmin) ∧
    ((createUser 0 freshEmailReq stAdmin).1.success = true ∧
      (createUser 0 freshEmailReq stAdmin).2.users =
        stAdmin.users ++ [newUserOfRequest 0 freshEmailReq stAdmin] ∧
      (newUserOfRequest 0 freshEmailReq stAdmin).email = freshEmailReq.email) :=
  ⟨(createUser_emailUniqueness 0 dupEmailReq stAdmin rfl).1 (by decide),
   (createUser_emailUniqueness 0 freshEmailReq stAdmin rfl).2 (by decide)⟩

/-- Claim C10: deleting the currently authenticated user's own id always
fails and leaves the users list unchanged; when the principal holds
`canManageUsers` the failure carries the cannot-delete-own-user message. -/
theorem deleteUser_noSelfDeletion (u : User) (st : UserServiceState)
    (hcur : st.currentUser = some u) :
    (deleteUser u.id st).1.success = false ∧
    (deleteUser u.id st).2 = st ∧
    (hasPermission st UserPermissions.canManageUsers = true →
      (deleteUser u.id st).1.message = some cannotDeleteSelfMsg) := by
  by_cases h : hasPermission st UserPermissions.canManageUsers = true
  · refine ⟨?_, ?_, fun _ => ?_⟩ <;>
      simp [deleteUser, h, isCurrentUserId, hcur]
  · have h' : hasPermission st UserPermissions.canManageUsers = false :=
      Bool.eq_false_iff.mpr h
    refine ⟨?_, ?_, fun hc => absurd hc h⟩ <;> simp [deleteUser, h']

/-- Witness for C10: the seeded admin cannot delete their own account. -/
theorem deleteUser_noSelfDeletion_w :
    (deleteUser adminUser0.id stAdmin).1.success = false ∧
    (deleteUser adminUser0.id stAdmin).2 = stAdmin ∧
    (hasPermission stAdmin UserPermissions.canManageUsers = true →
      (deleteUser adminUser0.id stAdmin).1.message =
        some cannotDeleteSelfMsg) :=
  deleteUser_noSelfDeletion adminUser0 stAdmin rfl

/-- Claim C6: `calculatePercentChange` returns 100 for `previous = 0` with
positive `current`, 0 for `previous = 0` with non-positive `current` (so
`(10, 0) ↦ 100` and `(0, 0) ↦ 0`), and `((current - previous) / previous) *
100` otherwise. -/
theorem calculatePercentChange_spec (c p : ℚ) :
    calculatePercentChange 10 0 = 100 ∧
    calculatePercentChange 0 0 = 0 ∧
    (p = 0 → 0 < c → calculatePercentChange c p = 100) ∧
    (p = 0 → c ≤ 0 → calculatePercentChange c p = 0) ∧
    (p ≠ 0 → calculatePercentChange c p = ((c - p) / p) * 100) := by
  refine ⟨by norm_num [calculatePercentChange],
          by norm_num [calculatePercentChange], ?_, ?_, ?_⟩
  · intro hp hc
    simp [calculatePercentChange, hp, hc]
  · intro hp hc
    simp [calculatePercentChange, hp, not_lt.mpr hc]
  · intro hp
    simp [calculatePercentChange, hp]

/-- Witness for C6: the two documented instances, plus the general formula
evaluated at `(5, 2)`. -/
theorem calculatePercentChange_spec_w :
    calculatePercentChange 10 0 = 100 ∧ calculatePercentChange 0 0 = 0 ∧
    calculatePercentChange 5 2 = 150 := by
  refine ⟨(calculatePercentChange_spec 5 2).1,
          (calculatePercentChange_spec 5 2).2.1, ?_⟩
  have h := (calculatePercentChange_spec 5 2).2.2.2.2 (by norm_num)
  rw [h]
  norm_num

/-- Counterexample to claim C7 ("no exception ever propagates to the caller
of any service method"): at the freshly constructed state, `getAllUsers`
throws `Error('Acesso negado: permissão insuficiente')` — the embedded call
raises instead of returning a `{success, message}` value. -/
theorem noExceptionEscape_cx :
    raisesError (getAllUsers stNone) = true ∧
    getAllUsers stNone = Except.error accessDeniedMsg :=
  ⟨rfl, rfl⟩

/-- Claim C7 as amended: the user-service methods with result-object types
convert failures into returned values, but `getAllUsers` and
`getUserActivity` have no local try/catch and throw an access-denied error —
which propagates to the caller — exactly when the required permission
(`canManageUsers`, resp. `canViewLogs`) is missing. -/
theorem noExceptionEscape_amended (st : UserServiceState) (now : Int)
    (uid : Option String) :
    getAllUsers st =
      (if hasPermission st UserPermissions.canManageUsers then
        Except.ok st.users
       else Except.error accessDeniedMsg) ∧
    raisesError (getAllUsers st) =
      !hasPermission st UserPermissions.canManageUsers ∧
    raisesError (getUserActivity now uid st) =
      !hasPermission st UserPermissions.canViewLogs := by
  refine ⟨?_, ?_, ?_⟩
  · by_cases h : hasPermission st UserPermissions.canManageUsers <;>
      simp [getAllUsers, h]
  · by_cases h : hasPermission st UserPermissions.canManageUsers <;>
      simp [getAllUsers, raisesError, h]
  · by_cases h : hasPermission st UserPermissions.canViewLogs <;>
      simp [getUserActivity, raisesError, h]

/-- Claim C3: after `markAllAsRead`, every stored notification is read and
`getUnreadNotifications` is empty. -/
theorem markAllAsRead_spec (st : NotificationState) :
    (∀ n ∈ (markAllAsRead st).notifications, n.read = true) ∧
    (getUnreadNotifications (markAllAsRead st)).length = 0 := by
  constructor
  · intro n hn
    simp only [markAllAsRead, List.mem_map] at hn
    obtain ⟨m, _, rfl⟩ := hn
    rfl
  · simp [getUnreadNotifications, markAllAsRead, filter_unread_after_markAll]

/-- Witness for C3: two unread notifications, zero unread after the call. -/
theorem markAllAsRead_spec_w :
    (getUnreadNotifications (markAllAsRead demoNotifState)).length = 0 :=
  (markAllAsRead_spec demoNotifState).2

/-- Claim C9: `addNotification` drops a category-disabled notification
silently while still returning the generated id; with the category enabled
and quiet hours active it only appends the built notification to the
deferral queue (nothing stored, no listener call); and `processQueue`
flushes the whole queue into the stored list and hands each queued
notification to the listeners. -/
theorem notificationDeliveryPolicy (freshId : String) (now timeOfDay : Nat)
    (input : NotificationInput) (st : NotificationState) :
    ((st.settings.categories.get input.category).enabled = false →
      addNotification freshId now timeOfDay input st =
        { id := freshId, state := st, delivered := [], soundPlayed := false }) ∧
    ((st.settings.categories.get input.category).enabled = true →
      isQuietHours st.settings timeOfDay = true →
      (addNotification freshId now timeOfDay input st).id = freshId ∧
      (addNotification freshId now timeOfDay input st).state.notifications =
        st.notifications ∧
      (addNotification freshId now timeOfDay input st).state.queue.notifications =
        st.queue.notifications ++ [buildNotification freshId now input] ∧
      (addNotification freshId now timeOfDay input st).delivered = [] ∧
      (addNotification freshId now timeOfDay input st).soundPlayed = false) ∧
    ((processQueue st).1.notifications =
      st.queue.notifications.reverse ++ st.notifications ∧
     (processQueue st).1.queue.notifications = [] ∧
     (processQueue st).2 = st.queue.notifications) := by
  refine ⟨?_, ?_, ?_⟩
  · intro hdis
    simp [addNotification, hdis]
  · intro hen hq
    simp [addNotification, hen, hq]
  · simp [processQueue, foldl_unshift]

/-- Witness for C9: a `system` notification is dropped when the category is
disabled; with quiet hours on at 23:00 an `order` notification is queued and
then delivered by `processQueue`. -/
theorem notificationDeliveryPolicy_w :
    (addNotification "n1" 7 0
        { type := NotificationType.info,
          category := NotificationCategory.system,
          priority := NotificationPriority.low, title := "t", message := "m" }
        stDisabledSystem =
      { id := "n1", state := stDisabledSystem, delivered := [],
        soundPlayed := false }) ∧
    ((addNotification "n2" 7 1380
        { type := NotificationType.info,
          category := NotificationCategory.order,
          priority := NotificationPriority.low, title := "t", message := "m" }
        stQuietOn).state.queue.notifications =
      stQuietOn.queue.notifications ++
        [buildNotification "n2" 7
          { type := NotificationType.info,
            category := NotificationCategory.order,
            priority := NotificationPriority.low, title := "t",
            message := "m" }]) ∧
    (processQueue stQuietOn).2 = stQuietOn.queue.notifications :=
  ⟨(notificationDeliveryPolicy "n1" 7 0 _ stDisabledSystem).1 (by decide),
   ((notificationDeliveryPolicy "n2" 7 1380 _ stQuietOn).2.1 (by decide)
      (by decide)).2.2.1,
   (notificationDeliveryPolicy "x" 0 0
      { type := NotificationType.info,
        category := NotificationCategory.general,
        priority := NotificationPriority.low, title := "t", message := "m" }
      stQuietOn).2.2.2.2⟩

/-- Counterexample to claim C8 ("after every public operation at most 1000
notifications are retained"): from a state holding exactly 1000
notifications and one queued item, `processQueue` leaves 1001 stored
notifications — it does not re-apply the cap. -/
theorem notificationCap_cx :
    (processQueue overflowState).1.notifications.length = 1001 ∧
    1000 < (processQueue overflowState).1.notifications.length := by
  have h : (processQueue overflowState).1.notifications.length = 1001 := by
    rw [processQueue_notifications, List.length_append, List.length_reverse,
      overflowState_length,
      show overflowState.queue.notifications = [demoNotif "q"] from rfl]
    rfl
  exact ⟨h, by rw [h]; norm_num⟩

/-- Claim C8 as amended: `addNotification` enforces the 1000-item cap — when
an insertion would exceed it, the list is truncated to the 1000 most recent
(newest-first) items — and `markAsRead`, `deleteNotification` and `clearAll`
preserve it, but `processQueue` inserts every queued notification without
re-applying the cap, so the stored list can exceed 1000 after it. -/
theorem notificationCap_amended (freshId : String) (now timeOfDay : Nat)
    (input : NotificationInput) (nid : String) (st : NotificationState)
    (h : st.notifications.length ≤ 1000) :
    (addNotification freshId now timeOfDay input st).state.notifications.length
      ≤ 1000 ∧
    (1000 ≤ st.notifications.length →
      (st.settings.categories.get input.category).enabled = true →
      isQuietHours st.settings timeOfDay = false →
      (addNotification freshId now timeOfDay input st).state.notifications =
        (buildNotification freshId now input :: st.notifications).take 1000) ∧
    (markAsRead nid st).2.notifications.length ≤ 1000 ∧
    (deleteNotification nid st).2.notifications.length ≤ 1000 ∧
    (clearAll st).notifications.length ≤ 1000 ∧
    (processQueue st).1.notifications.length =
      st.queue.notifications.length + st.notifications.length := by
  refine ⟨?_, ?_, ?_, ?_, ?_, ?_⟩
  · by_cases hen : (st.settings.categories.get input.category).enabled
    · by_cases hq : isQuietHours st.settings timeOfDay
      · simpa [addNotification, hen, hq] using h
      · have hcap := capped_length_le (buildNotification freshId now input)
          st.notifications h
        simpa [addNotification, hen, hq] using hcap
    · have hen' : (st.settings.categories.get input.category).enabled = false :=
        Bool.eq_false_iff.mpr hen
      simpa [addNotification, hen'] using h
  · intro hge hen hq
    have hlen :
        (buildNotification freshId now input :: st.notifications).length
          > 1000 := by
      simp only [List.length_cons]
      omega
    simp [addNotification, hen, hq, hlen]
  · rcases hfind : st.notifications.find? fun n => n.id = nid with _ | n
    · simpa [markAsRead, hfind] using h
    · by_cases hr : n.read
      · simpa [markAsRead, hfind, hr] using h
      · simpa [markAsRead, hfind, hr, length_setFirstRead] using h
  · rcases hfind : st.notifications.findIdx? fun n => n.id = nid with _ | i
    · simpa [deleteNotification, hfind] using h
    · simp only [deleteNotification, hfind]
      exact le_trans (length_eraseIdx_le st.notifications i) h
  · simp [clearAll]
  · simp [processQueue, foldl_unshift]

/-- Witness for C8 (amended): at a full list and default settings, inserting
keeps exactly 1000 items, and `processQueue` yields 1001. -/
theorem notificationCap_amended_w :
    (addNotification "f" 3 600
        { type := NotificationType.info,
          category := NotificationCategory.general,
          priority := NotificationPriority.low, title := "t", message := "m" }
        overflowState).state.notifications.length ≤ 1000 ∧
    (processQueue overflowState).1.notifications.length =
      overflowState.queue.notifications.length +
        overflowState.notifications.length :=
  ⟨(notificationCap_amended "f" 3 600
      { type := NotificationType.info,
        category := NotificationCategory.general,
        priority := NotificationPriority.low, title := "t", message := "m" }
      "x" overflowState (le_of_eq overflowState_length)).1,
   (notificationCap_amended "f" 3 600
      { type := NotificationType.info,
        category := NotificationCategory.general,
        priority := NotificationPriority.low, title := "t", message := "m" }
      "x" overflowState (le_of_eq overflowState_length)).2.2.2.2.2⟩

/-- Counterexample to claim C4 ("status progresses through pending, then
running, ... never skipping the pending state"): the very first observable
state of a freshly created backup already has status `running` — the record
is unshifted with `status: 'running'`, so `pending` is skipped. -/
theorem backupLifecycle_cx :
    ((createBackupStart "b1" 0 "d" BackupType.full none
        emptyBackupState).1.backups.map BackupItem.status =
      [BackupStatus.running]) ∧
    (decide
      ((createBackupStart "b1" 0 "d" BackupType.full none
          emptyBackupState).2.status = BackupStatus.pending) = false) :=
  ⟨rfl, rfl⟩

/-- Claim C4 as amended: every backup created by `createBackup` appears in
the backups list immediately (the synchronous prefix unshifts it; there is
no quiet-hours check in `BackupService`, quiet-hours queueing and
`processQueue` belong to the notification service), with initial status
`running` — never `pending` — which the epilogue advances to `completed`
(with size, completion stamp, object URL and progress 100) on success or to
`failed` (with the error message) on error. -/
theorem backupLifecycle_amended (backupId : String) (now : Nat)
    (dateStr url msg : String) (t : BackupType) (descr : Option String)
    (doneAt blobSize : Nat) (st : BackupState) :
    (createBackupStart backupId now dateStr t descr st).1.backups =
      (createBackupStart backupId now dateStr t descr st).2 :: st.backups ∧
    (createBackupStart backupId now dateStr t descr st).2.status =
      BackupStatus.running ∧
    (decide
      ((createBackupStart backupId now dateStr t descr st).2.status =
        BackupStatus.pending) = false) ∧
    (createBackupComplete backupId doneAt blobSize url
        (createBackupStart backupId now dateStr t descr st).1).backups =
      { (createBackupStart backupId now dateStr t descr st).2 with
          size := blobSize, status := BackupStatus.completed,
          completedAt := some doneAt, downloadUrl := some url,
          progress := 100 } :: st.backups ∧
    (createBackupFail backupId msg
        (createBackupStart backupId now dateStr t descr st).1).backups =
      { (createBackupStart backupId now dateStr t descr st).2 with
          status := BackupStatus.failed, errorMessage := some msg } ::
        st.backups := by
  have hb : (newBackupItem backupId now dateStr t descr).id = backupId := rfl
  refine ⟨rfl, rfl, rfl, ?_, ?_⟩
  · simp only [createBackupComplete, createBackupStart]
    rw [setFirstBackup_headMatch _ _ _ _ hb]
  · simp only [createBackupFail, createBackupStart]
    rw [setFirstBackup_headMatch _ _ _ _ hb]

/-- Claim C5: `deleteBackup` on an id present in the list revokes the
removed entry's object URL (when it has one), removes exactly the first
entry bearing that id, and returns success; on an absent id it returns
failure and changes nothing. -/
theorem deleteBackup_spec (backupId : String) (st : BackupState) :
    ((st.backups.any fun b => b.id = backupId) = false →
      deleteBackup backupId st =
        ({ success := false, message := some backupNotFoundMsg }, st, [])) ∧
    ((st.backups.any fun b => b.id = backupId) = true →
      ∃ pre b post,
        st.backups = pre ++ b :: post ∧ b.id = backupId ∧
        (∀ x ∈ pre, ¬ x.id = backupId) ∧
        deleteBackup backupId st =
          ({ success := true }, { backups := pre ++ post },
           revokedUrls b)) := by
  constructor
  · intro habs
    simp [deleteBackup, removeFirstBackup_none backupId st.backups habs]
  · intro hpres
    obtain ⟨pre, b, post, hl, hb, hpre, heq⟩ :=
      removeFirstBackup_some backupId st.backups hpres
    exact ⟨pre, b, post, hl, hb, hpre, by simp [deleteBackup, heq]⟩

/-- Witness for C5: deleting an absent id leaves the demo list unchanged,
and deleting the present backup removes it and revokes its object URL. -/
theorem deleteBackup_spec_w :
    (deleteBackup "nope" stBackups =
      ({ success := false, message := some backupNotFoundMsg },
       stBackups, [])) ∧
    deleteBackup "bk1" stBackups =
      ({ success := true }, { backups := [] }, ["blob:demo"]) := by
  refine ⟨(deleteBackup_spec "nope" stBackups).1 (by decide), ?_⟩
  obtain ⟨pre, b, post, hl, _, _, heq⟩ :=
    (deleteBackup_spec "bk1" stBackups).2 (by decide)
  rfl

end Check
